import Mathlib

/- Verification of the Scout research frontend: the shared TypeScript types,
   the typed API client, the SSE hook and the research session page, together
   with a model of the Cycle Engine taken from the specification (the engine
   itself is a backend component that is not part of these sources). -/

namespace Scout

/-- Research session status, from the shared types (ResearchStatus). -/
inductive ResearchStatus
| pending
| running
| completed
| stopped
| failed
deriving DecidableEq, Repr

/-- Research path status, from the shared types (PathStatus). -/
inductive PathStatus
| active
| completed
| stopped
| exhausted
| error
deriving DecidableEq, Repr

/-- Finding category, from the shared types (FindingCategory). -/
inductive FindingCategory
| people
| initiative
| technology
| competitive
| financial
| market
deriving DecidableEq, Repr

/-- Confidence level, from the shared types (ConfidenceLevel). -/
inductive ConfidenceLevel
| none
| low
| medium
| high
| sufficient
deriving DecidableEq, Repr

/-- Per-category confidence, from the shared types (ConfidenceAssessment):
every one of the six categories is a required field. -/
structure ConfidenceAssessment where
  people : ConfidenceLevel
  initiative : ConfidenceLevel
  technology : ConfidenceLevel
  competitive : ConfidenceLevel
  financial : ConfidenceLevel
  market : ConfidenceLevel
deriving DecidableEq, Repr

/-- Lookup of a category's level in a ConfidenceAssessment. -/
def ConfidenceAssessment.get (a : ConfidenceAssessment) : FindingCategory → ConfidenceLevel
| .people => a.people
| .initiative => a.initiative
| .technology => a.technology
| .competitive => a.competitive
| .financial => a.financial
| .market => a.market

/-- One research finding, from the shared types (ResearchFinding); the content
payload is opaque structured data, kept here as a string. -/
structure ResearchFinding where
  id : String
  research_path_id : String
  initiative_id : String
  category : FindingCategory
  content : String
  source_url : Option String
  source_type : Option String
  confidence_score : ℚ
  created_at : String
deriving DecidableEq, Repr

/-- Dashboard category content, from the shared types (CategoryContent). -/
structure CategoryContent where
  summary : String
  findings : List ResearchFinding
  insights : Option (List String)
  confidence : ConfidenceLevel
deriving DecidableEq, Repr

/-- Portfolio recommendation, from the shared types (PortfolioRecommendation). -/
structure PortfolioRecommendation where
  vendor : String
  capability : String
  relevance : String
  supporting_findings : List String
deriving DecidableEq, Repr

/-- The per-category content map of a dashboard, from the shared types
(DashboardContent.content): every category's entry is optional. -/
structure DashboardCategoryMap where
  people : Option CategoryContent
  initiative : Option CategoryContent
  technology : Option CategoryContent
  competitive : Option CategoryContent
  financial : Option CategoryContent
  market : Option CategoryContent
deriving DecidableEq, Repr

/-- Lookup of a category's optional content in a dashboard content map. -/
def DashboardCategoryMap.get (m : DashboardCategoryMap) : FindingCategory → Option CategoryContent
| .people => m.people
| .initiative => m.initiative
| .technology => m.technology
| .competitive => m.competitive
| .financial => m.financial
| .market => m.market

/-- Dashboard content, from the shared types (DashboardContent). -/
structure DashboardContent where
  id : String
  initiative_id : String
  content : DashboardCategoryMap
  portfolio_recommendations : Option (List PortfolioRecommendation)
  created_at : String
  updated_at : String
deriving DecidableEq, Repr

/-- The confidence level the research page renders for a category: the page
reads the dashboard's optional per-category content and falls back to the
level none when the category's content is absent
(page.tsx: content?.confidence || "none"). -/
def displayedConfidence (d : DashboardContent) (c : FindingCategory) : ConfidenceLevel :=
  match d.content.get c with
  | some cc => cc.confidence
  | Option.none => ConfidenceLevel.none

/-- Display configuration of one confidence level on the research page. -/
structure ConfidenceDisplay where
  color : String
  width : String
  label : String
deriving DecidableEq, Repr

/-- The research page's confidence display table (confidenceConfig in
page.tsx), mapping each level to a color class, a Tailwind width class and a
label. -/
def confidenceConfig : ConfidenceLevel → ConfidenceDisplay
| .none => ⟨"bg-gray-600", "w-0", "None"⟩
| .low => ⟨"bg-red-500", "w-1/4", "Low"⟩
| .medium => ⟨"bg-yellow-500", "w-1/2", "Medium"⟩
| .high => ⟨"bg-green-400", "w-3/4", "High"⟩
| .sufficient => ⟨"bg-scout-primary", "w-full", "Sufficient"⟩

/-- The width fraction denoted by a Tailwind width utility class, for the
classes the research page uses; Option.none for an unrecognized class. -/
def twWidthFraction : String → Option ℚ
| "w-0" => some 0
| "w-1/4" => some (1/4)
| "w-1/2" => some (1/2)
| "w-3/4" => some (3/4)
| "w-full" => some 1
| _ => Option.none

/-- Ordinal rank of a confidence level in the chain
none < low < medium < high < sufficient. -/
def ConfidenceLevel.rank : ConfidenceLevel → Nat
| .none => 0
| .low => 1
| .medium => 2
| .high => 3
| .sufficient => 4

/-- The progress-bar width fraction the page assigns to a confidence level:
the fraction denoted by the Tailwind class in its display configuration. -/
def widthFraction (l : ConfidenceLevel) : ℚ :=
  (twWidthFraction (confidenceConfig l).width).getD 0

/-- One research session record, from the shared types (ResearchSession). -/
structure ResearchSession where
  id : String
  initiative_id : String
  triggered_by : String
  status : ResearchStatus
  follow_up_question : Option String
  started_at : Option String
  completed_at : Option String
  error_message : Option String
deriving DecidableEq, Repr

/-- The research page's session-state update after a successful stop call
(handleStopResearch in page.tsx): if a session is loaded, mark its status
stopped; otherwise leave the absent session absent. -/
def stopSessionUpdate : Option ResearchSession → Option ResearchSession
| some s => some { s with status := ResearchStatus.stopped }
| Option.none => Option.none

/-- SSE event type, from the shared types (SSEEventType): exactly nine kinds.
The specification names them cycle-started, path-started, path-completed,
path-stopped, synthesis-complete, intelligence-updated, initiative-discovered,
session-complete and error, in this order. -/
inductive SSEEventType
| cycle_started
| subagent_started
| subagent_completed
| subagent_stopped
| synthesis_complete
| findings_updated
| initiative_discovered
| research_complete
| error
deriving DecidableEq, Repr

/-- Modelled from the spec: the reason carried by a path-stopped event is one
of user, budget or error (the sources type the event payloads only as opaque
records and the emitting engine is a backend component outside these sources). -/
inductive StopReason
| user
| budget
| error
deriving DecidableEq, Repr

/-- The data payload of an SSE event, one constructor per event kind. The
shapes of the cycle-started, path-started, path-completed,
intelligence-updated, session-complete and initiative-discovered payloads are
from the shared types (CycleStartedEvent, SubagentStartedEvent,
SubagentCompletedEvent, FindingsUpdatedEvent, ResearchCompleteEvent,
InitiativeDiscoveredEvent). The path-stopped reason and the error payload are
modelled from the spec (path-stopped carries a reason, error carries a message
and a recoverable flag); the synthesis-complete payload is empty. -/
inductive SSEEventData
| cycle_started (cycle_number : Nat) (plan_summary : String)
| subagent_started (path_id : String) (topic : String) (priority : String)
| subagent_completed (path_id : String) (topic : String) (findings_count : Nat)
    (tangential_signals : Option (List String))
| subagent_stopped (path_id : String) (reason : StopReason)
| synthesis_complete
| findings_updated (dashboard_content : DashboardContent)
| initiative_discovered (initiative_name : String) (description : String)
    (evidence : List String)
| research_complete (total_cycles : Nat) (total_findings : Nat)
    (final_confidence : ConfidenceAssessment)
| error (message : String) (recoverable : Bool)
deriving DecidableEq, Repr

/-- The event kind of a payload. -/
def SSEEventData.kind : SSEEventData → SSEEventType
| .cycle_started _ _ => .cycle_started
| .subagent_started _ _ _ => .subagent_started
| .subagent_completed _ _ _ _ => .subagent_completed
| .subagent_stopped _ _ => .subagent_stopped
| .synthesis_complete => .synthesis_complete
| .findings_updated _ => .findings_updated
| .initiative_discovered _ _ _ => .initiative_discovered
| .research_complete _ _ _ => .research_complete
| .error _ _ => .error

/-- One progress event on a session's stream, from the shared types
(SSEEvent): every event carries a timestamp and the session identifier it is
scoped to, along with its typed payload. -/
structure SSEEvent where
  timestamp : String
  session_id : String
  data : SSEEventData
deriving DecidableEq, Repr

/-- The type tag of an event, determined by its payload. -/
def SSEEvent.type (e : SSEEvent) : SSEEventType :=
  e.data.kind

/-- HTTP method of an API client operation. -/
inductive HttpMethod
| GET
| POST
| PUT
| DELETE
deriving DecidableEq, Repr

/-- One operation of the typed API client: its exported name, its HTTP method
(GET when the client passes no method option), and its endpoint template. -/
structure ApiOperation where
  name : String
  method : HttpMethod
  endpoint : String
deriving DecidableEq, Repr

/-- The research API of the typed client (researchApi in the API client
module), one entry per exported operation, in source order. -/
def researchApi : List ApiOperation :=
  [ { name := "start", method := .POST, endpoint := "/research/start" },
    { name := "get", method := .GET, endpoint := "/research/{sessionId}" },
    { name := "stop", method := .POST, endpoint := "/research/{sessionId}/stop" },
    { name := "stopPath", method := .POST,
      endpoint := "/research/{sessionId}/paths/{pathId}/stop" },
    { name := "followUp", method := .POST,
      endpoint := "/research/{sessionId}/follow-up" },
    { name := "getDashboard", method := .GET,
      endpoint := "/initiatives/{initiativeId}/dashboard" } ]

/-- The observable shape of a parsed JSON response body, as far as the request
helper inspects it: an optional top-level message string and an opaque
remainder. -/
structure JsonBody where
  message : Option String
  payload : String
deriving DecidableEq, Repr

/-- An HTTP response as the request helper observes it: the ok flag, the
numeric status code, and the result of attempting to parse the body as JSON
(Option.none models a body that is not valid JSON, so that parsing it
rejects). -/
structure HttpResponse where
  ok : Bool
  status : Nat
  body : Option JsonBody
deriving DecidableEq, Repr

/-- Outcome of one call to the request helper: return the parsed body, throw
an ApiError with a status and message, or reject with a JSON parse failure
raised by parsing the body of an ok response. -/
inductive RequestOutcome
| success (body : JsonBody)
| apiError (status : Nat) (message : String)
| parseFailure
deriving DecidableEq, Repr

/-- The API client's request helper: on an ok response it returns the parsed
JSON body (parsing rejects when the body is not JSON); on a non-ok response it
parses the error body, substituting a default object with message
"Unknown error" when that parse fails, and throws an ApiError carrying the
response's status and the body's message, falling back to "HTTP <status>"
when that message is absent or empty (error.message || fallback). -/
def request (resp : HttpResponse) : RequestOutcome :=
  if resp.ok then
    match resp.body with
    | some j => .success j
    | Option.none => .parseFailure
  else
    let errBody := resp.body.getD { message := some ("Unknown error"), payload := "" }
    let msg :=
      match errBody.message with
      | some m => if m = "" then "HTTP " ++ toString resp.status else m
      | Option.none => "HTTP " ++ toString resp.status
    .apiError resp.status msg

/-- Whether a request outcome is a normal return. -/
def RequestOutcome.isSuccess : RequestOutcome → Bool
| .success _ => true
| _ => false

/-- The state the useSSE hook maintains around one EventSource connection:
the isConnected flag, the connectionError message, whether the source has been
closed, and the sequence of events delivered to the onMessage callback. -/
structure SSEHookState where
  isConnected : Bool
  connectionError : Option String
  closed : Bool
  delivered : List SSEEvent
deriving DecidableEq, Repr

/-- One EventSource callback as the useSSE hook installs it: the open
handler, the message handler given the result of JSON.parse on the message's
data (Option.none models a malformed, non-JSON message), or the transport
error handler. -/
inductive SourceCallback
| onOpen
| onMessage (parsed : Option SSEEvent)
| onError
deriving DecidableEq, Repr

/-- One step of the useSSE hook's handlers: onopen sets isConnected and clears
connectionError; onmessage delivers the parsed event to onMessage, and on a
parse failure only logs (no delivery, no state change, no close); onerror
clears isConnected, records "Connection lost" and closes the source. -/
def hookStep (s : SSEHookState) : SourceCallback → SSEHookState
| .onOpen => { s with isConnected := true, connectionError := Option.none }
| .onMessage parsed =>
    match parsed with
    | some e => { s with delivered := s.delivered ++ [e] }
    | Option.none => s
| .onError =>
    { s with isConnected := false,
             connectionError := some ("Connection lost"),
             closed := true }

/-- Modelled from the spec: an Assignment, the unit of work produced by the
Planner for a cycle — identifier, topic, instructions, suggested capabilities
and priority (the Planner and Cycle Engine are backend components outside
these sources). A smaller priority number is treated as a higher priority. -/
structure Assignment where
  id : String
  topic : String
  instructions : String
  suggestedCapabilities : List String
  priority : Nat
deriving DecidableEq, Repr

/-- Modelled from the spec: Cycle Engine step 1 — the Planner must return at
most 5 assignments; if it returns more, the Engine truncates to the first 5 by
priority, ties broken by input order. Implemented by a stable ordering of the
enumerated assignments by (priority, input index) followed by taking the first
five. -/
def truncateAssignments (assignments : List Assignment) : List Assignment :=
  ((assignments.enum.mergeSort fun x y =>
      x.2.priority < y.2.priority || (x.2.priority == y.2.priority && x.1 ≤ y.1)).map
    Prod.snd).take 5

/-- Modelled from the spec: a Path, the execution record created when one
Assignment is dispatched to a worker. -/
structure Path where
  assignmentId : String
  topic : String
  status : PathStatus
  toolsUsed : Nat
deriving DecidableEq, Repr

/-- Modelled from the spec: Cycle Engine step 2 — dispatch one worker per
assignment of the truncated plan; the dispatch mechanism itself enforces the
hard concurrency ceiling of 5, so the live paths of a cycle are exactly the
paths of the truncated plan. -/
def dispatchCycle (plannerAssignments : List Assignment) : List Path :=
  (truncateAssignments plannerAssignments).map fun a =>
    { assignmentId := a.id, topic := a.topic, status := PathStatus.active, toolsUsed := 0 }

/-- Modelled from the spec: the outcome of one dispatched worker (step 3) —
success with findings, an exhausted marker, stopped via its Path's StopSignal
with whatever findings it had accumulated, or failure after exhausting its own
retry policy. -/
inductive WorkerResult
| success (findings : List ResearchFinding)
| exhausted
| stopped (gatheredFindings : List ResearchFinding)
| failure (detail : String)
deriving DecidableEq, Repr

/-- Whether a worker result is a WorkerFailure (not merely exhausted or
stopped). -/
def WorkerResult.isFailure : WorkerResult → Bool
| .failure _ => true
| _ => false

/-- The findings a worker result contributes to the Merger: successful and
stopped workers contribute what they gathered; exhausted and failed workers
contribute nothing. -/
def WorkerResult.findings : WorkerResult → List ResearchFinding
| .success fs => fs
| .stopped fs => fs
| _ => []

/-- Modelled from the spec: the Session state the Cycle Engine owns — status,
cycle count, accumulated intelligence, terminal reason, and the session-wide
StopSignal. -/
structure EngineSession where
  status : ResearchStatus
  cycleCount : Nat
  intelligence : List ResearchFinding
  terminalReason : Option String
  stopSignal : Bool
deriving DecidableEq, Repr

/-- Modelled from the spec: one cycle of the Engine's loop. A cycle starts
only while the session status is running. Step 4: if at least one worker was
dispatched and every one of them failed (not merely exhausted), the cycle is
degraded and the Session terminates with status failed. Otherwise the
successful and stopped workers' findings are merged into the accumulated
intelligence and the Session either completes or continues; the stop-condition
evaluation of steps 5-7 is abstracted by the stopAfter input, which no claim
depends on. -/
def runCycleStep (st : EngineSession) (results : List WorkerResult) (stopAfter : Bool) :
    EngineSession :=
  if st.status = ResearchStatus.running then
    let st1 := { st with cycleCount := st.cycleCount + 1 }
    if !results.isEmpty && results.all WorkerResult.isFailure then
      { st1 with status := ResearchStatus.failed,
                 terminalReason := some ("all workers failed") }
    else
      let merged := st1.intelligence ++ results.foldr (fun r acc => r.findings ++ acc) []
      if stopAfter then
        { st1 with status := ResearchStatus.completed, intelligence := merged }
      else
        { st1 with intelligence := merged }
  else st

/-- Modelled from the spec: the Engine's loop over a whole session, each list
entry being one cycle's worker results together with that cycle's
stop-condition outcome; cycles run in order and a cycle only has an effect
while the session is still running. -/
def runEngine (st : EngineSession) (script : List (List WorkerResult × Bool)) :
    EngineSession :=
  script.foldl (fun s c => runCycleStep s c.1 c.2) st

/-- Modelled from the spec: the Engine's handling of a Stop() call — the call
sets the session-wide StopSignal; a running session halts at the next
suspension point, is marked stopped and emits one terminal event; a session
that is no longer running is left as it is (beyond the already-set signal) and
no event is emitted. -/
def engineStop (st : EngineSession) : EngineSession × List SSEEventType :=
  if st.status = ResearchStatus.running then
    ({ st with stopSignal := true,
               status := ResearchStatus.stopped,
               terminalReason := some ("stopped by user") },
     [SSEEventType.research_complete])
  else
    ({ st with stopSignal := true }, [])

/-- Modelled from the spec: the state the control surface touches — the
session StopSignal, the per-path StopSignals that have been set, the queued
follow-up input, the pending session starts, and the events emitted so far
(a control call emits nothing synchronously; its effect is observed later on
the event stream). -/
structure ControlState where
  sessionStop : Bool
  pathStops : List String
  inputQueue : List String
  pendingStarts : List String
  emitted : List SSEEventType
deriving DecidableEq, Repr

/-- One invocation of a control-surface operation. -/
inductive ControlCall
| startSession (input : String)
| stopSession
| stopPath (pathId : String)
| injectFollowUp (question : String)
deriving DecidableEq, Repr

/-- Modelled from the spec: each control operation is a synchronous state
update that only mutates a StopSignal or enqueues input and then returns
immediately. -/
def applyControl (st : ControlState) : ControlCall → ControlState
| .startSession input => { st with pendingStarts := st.pendingStarts ++ [input] }
| .stopSession => { st with sessionStop := true }
| .stopPath pathId => { st with pathStops := st.pathStops ++ [pathId] }
| .injectFollowUp question => { st with inputQueue := st.inputQueue ++ [question] }

/-- A dashboard with no per-category content, used to evaluate the rendering
fallback on a concrete input. -/
def emptyDashboard : DashboardContent :=
  { id := "d0", initiative_id := "i0",
    content := { people := Option.none, initiative := Option.none,
                 technology := Option.none, competitive := Option.none,
                 financial := Option.none, market := Option.none },
    portfolio_recommendations := Option.none, created_at := "", updated_at := "" }

/-- A concrete path-stopped event. -/
def stoppedEvent : SSEEvent :=
  { timestamp := "t0", session_id := "s0",
    data := SSEEventData.subagent_stopped "p0" StopReason.user }

/-- A concrete non-ok response whose parsed error body has no message. -/
def notFoundResponse : HttpResponse :=
  { ok := false, status := 404, body := some { message := Option.none, payload := "" } }

/-- A concrete ok response whose body is not valid JSON. -/
def okNonJsonResponse : HttpResponse :=
  { ok := true, status := 200, body := Option.none }

/-- A concrete running engine session. -/
def runningEngineSession : EngineSession :=
  { status := ResearchStatus.running, cycleCount := 0, intelligence := [],
    terminalReason := Option.none, stopSignal := false }

/-- A concrete engine session that has already been stopped. -/
def stoppedEngineSession : EngineSession :=
  { status := ResearchStatus.stopped, cycleCount := 2, intelligence := [],
    terminalReason := some ("stopped by user"), stopSignal := true }

/-- The useSSE hook state before any callback has fired. -/
def initialHookState : SSEHookState :=
  { isConnected := false, connectionError := Option.none, closed := false,
    delivered := [] }

/- Theorems. -/

/-- Helper: a cycle step on a session that is no longer running changes
nothing. -/
theorem runCycleStep_not_running (st : EngineSession) (r : List WorkerResult) (b : Bool)
    (h : st.status ≠ ResearchStatus.running) : runCycleStep st r b = st := by
  simp [runCycleStep, h]

/-- Helper: the engine loop on a session that is no longer running changes
nothing, whatever the remaining script is. -/
theorem runEngine_not_running (st : EngineSession) (script : List (List WorkerResult × Bool))
    (h : st.status ≠ ResearchStatus.running) : runEngine st script = st := by
  induction script with
  | nil => rfl
  | cons c cs ih =>
      show runEngine (runCycleStep st c.1 c.2) cs = st
      rw [runCycleStep_not_running st c.1 c.2 h]
      exact ih

/-- Claim C5: every Session status is exactly one of pending, running,
completed, stopped or failed, and every Path status is exactly one of active,
completed, stopped, exhausted or error; no other value of either type
exists. -/
theorem status_enumerations_c5 :
    (∀ s : ResearchStatus, s = ResearchStatus.pending ∨ s = ResearchStatus.running ∨
        s = ResearchStatus.completed ∨ s = ResearchStatus.stopped ∨
        s = ResearchStatus.failed) ∧
    (∀ p : PathStatus, p = PathStatus.active ∨ p = PathStatus.completed ∨
        p = PathStatus.stopped ∨ p = PathStatus.exhausted ∨ p = PathStatus.error) := by
  constructor <;> intro x <;> cases x <;> simp

/-- Claim C1: for every cycle, the number of concurrently dispatched (live)
Paths is at most 5, regardless of how many assignments the Planner returns:
the Engine truncates the plan to the first 5 by priority before dispatching. -/
theorem dispatch_at_most_five_c1 (assignments : List Assignment) :
    (dispatchCycle assignments).length ≤ 5 := by
  simp only [dispatchCycle, truncateAssignments, List.length_map, List.length_take]
  omega

/-- Claim C7: the control surface of the research API exposes exactly four
state-mutating (POST) operations — start, stop, stopPath and followUp — and
each control call is a synchronous state update that only mutates a StopSignal
or enqueues input, emitting nothing on the event stream at call time. -/
theorem control_surface_four_ops_c7 :
    ((researchApi.filter fun op => op.method == HttpMethod.POST).map ApiOperation.name
        = ["start", "stop", "stopPath", "followUp"]) ∧
    (researchApi.filter fun op => op.method == HttpMethod.POST).length = 4 ∧
    ∀ (st : ControlState) (c : ControlCall), (applyControl st c).emitted = st.emitted := by
  refine ⟨rfl, rfl, ?_⟩
  intro st c
  cases c <;> rfl

/-- Claim C8: confidence levels form the strict ordinal chain
none < low < medium < high < sufficient, each level's Tailwind width class is
recognized, and the progress-bar width fraction the page assigns is strictly
monotone in that order: a is below b exactly when a's fraction is below b's. -/
theorem confidence_width_monotone_c8 :
    List.Chain' (fun a b => ConfidenceLevel.rank a < ConfidenceLevel.rank b)
      [ConfidenceLevel.none, ConfidenceLevel.low, ConfidenceLevel.medium,
       ConfidenceLevel.high, ConfidenceLevel.sufficient] ∧
    (∀ l : ConfidenceLevel, (twWidthFraction (confidenceConfig l).width).isSome = true) ∧
    ∀ a b : ConfidenceLevel,
      ConfidenceLevel.rank a < ConfidenceLevel.rank b ↔ widthFraction a < widthFraction b := by
  refine ⟨?_, ?_, ?_⟩
  · simp [List.chain'_cons, ConfidenceLevel.rank]
  · intro l; cases l <;> rfl
  · intro a b
    cases a <;> cases b <;>
      simp [widthFraction, twWidthFraction, confidenceConfig, ConfidenceLevel.rank] <;>
      norm_num

/-- Claim C4: every ConfidenceAssessment maps every one of the six categories
to a level (totality), and the research page's rendering treats an absent
category as level none, never as missing: the displayed confidence is none
exactly where the dashboard has no content for the category, and the stored
level wherever it has one. -/
theorem confidence_total_c4 :
    (∀ (a : ConfidenceAssessment) (c : FindingCategory), ∃ l, a.get c = l) ∧
    (∀ (d : DashboardContent) (c : FindingCategory),
        d.content.get c = Option.none → displayedConfidence d c = ConfidenceLevel.none) ∧
    (∀ (d : DashboardContent) (c : FindingCategory) (cc : CategoryContent),
        d.content.get c = some cc → displayedConfidence d c = cc.confidence) := by
  refine ⟨fun a c => ⟨a.get c, rfl⟩, ?_, ?_⟩
  · intro d c h
    simp [displayedConfidence, h]
  · intro d c cc h
    simp [displayedConfidence, h]

/-- Witness for C4: on a dashboard with no content for the people category,
the page displays confidence level none. -/
theorem confidence_total_c4_witness :
    displayedConfidence emptyDashboard FindingCategory.people = ConfidenceLevel.none :=
  confidence_total_c4.2.1 emptyDashboard FindingCategory.people rfl

/-- Claim C3: every progress event carries a timestamp and a session
identifier by construction, its kind is one of exactly the nine event types
(cycle-started, path-started, path-completed, path-stopped,
synthesis-complete, intelligence-updated, initiative-discovered,
session-complete, error, named cycle_started, subagent_started,
subagent_completed, subagent_stopped, synthesis_complete, findings_updated,
initiative_discovered, research_complete, error in the sources), a
path-stopped event carries a reason that is user, budget or error, and an
error event carries a message and a recoverable flag. -/
theorem sse_event_kinds_c3 (e : SSEEvent) :
    (e.type = SSEEventType.cycle_started ∨ e.type = SSEEventType.subagent_started ∨
     e.type = SSEEventType.subagent_completed ∨ e.type = SSEEventType.subagent_stopped ∨
     e.type = SSEEventType.synthesis_complete ∨ e.type = SSEEventType.findings_updated ∨
     e.type = SSEEventType.initiative_discovered ∨ e.type = SSEEventType.research_complete ∨
     e.type = SSEEventType.error) ∧
    (e.type = SSEEventType.subagent_stopped →
      ∃ pid r, e.data = SSEEventData.subagent_stopped pid r ∧
        (r = StopReason.user ∨ r = StopReason.budget ∨ r = StopReason.error)) ∧
    (e.type = SSEEventType.error → ∃ m b, e.data = SSEEventData.error m b) := by
  obtain ⟨ts, sid, d⟩ := e
  cases d with
  | subagent_stopped pid r =>
      refine ⟨?_, fun _ => ⟨pid, r, rfl, ?_⟩, fun h => ?_⟩
      · simp [SSEEvent.type, SSEEventData.kind]
      · cases r <;> simp
      · exact absurd h (by simp [SSEEvent.type, SSEEventData.kind])
  | error m b =>
      refine ⟨?_, fun h => ?_, fun _ => ⟨m, b, rfl⟩⟩
      · simp [SSEEvent.type, SSEEventData.kind]
      · exact absurd h (by simp [SSEEvent.type, SSEEventData.kind])
  | _ =>
      refine ⟨?_, fun h => ?_, fun h => ?_⟩
      · simp [SSEEvent.type, SSEEventData.kind]
      · exact absurd h (by simp [SSEEvent.type, SSEEventData.kind])
      · exact absurd h (by simp [SSEEvent.type, SSEEventData.kind])

/-- Witness for C3: a concrete path-stopped event carries a reason, and that
reason is one of user, budget or error. -/
theorem sse_event_kinds_c3_witness :
    ∃ pid r, stoppedEvent.data = SSEEventData.subagent_stopped pid r ∧
      (r = StopReason.user ∨ r = StopReason.budget ∨ r = StopReason.error) :=
  (sse_event_kinds_c3 stoppedEvent).2.1 rfl

/-- Claim C6: stopping an already-stopped session is idempotent — the
research page's state update is idempotent, the engine's handling of a Stop()
call on an already-stopped session (whose StopSignal is already set) changes
nothing and emits no event, and a second Stop() after any first Stop() leaves
the state of the first unchanged and emits no duplicate terminal event. -/
theorem stop_idempotent_c6 :
    (∀ s : Option ResearchSession,
        stopSessionUpdate (stopSessionUpdate s) = stopSessionUpdate s) ∧
    (∀ st : EngineSession, st.status = ResearchStatus.stopped → st.stopSignal = true →
        engineStop st = (st, [])) ∧
    (∀ st : EngineSession, engineStop (engineStop st).1 = ((engineStop st).1, [])) := by
  refine ⟨?_, ?_, ?_⟩
  · intro s
    cases s with
    | none => rfl
    | some x => rfl
  · intro st h1 h2
    obtain ⟨stat, cnt, intel, reason, sig⟩ := st
    simp only at h1 h2
    subst h1
    subst h2
    simp [engineStop]
  · intro st
    obtain ⟨stat, cnt, intel, reason, sig⟩ := st
    by_cases h : stat = ResearchStatus.running <;> simp [engineStop, h]

/-- Witness for C6: a second Stop() on a concrete stopped session whose
signal is set returns the state unchanged and emits nothing. -/
theorem stop_idempotent_c6_witness :
    engineStop stoppedEngineSession = (stoppedEngineSession, []) :=
  stop_idempotent_c6.2.1 stoppedEngineSession rfl rfl

/-- Claim C2: in a cycle where at least one worker was dispatched and every
dispatched worker failed (WorkerFailure, not merely exhausted or stopped), the
session transitions to status failed, and no further cycle starts: running the
engine on any further script from that state changes nothing. -/
theorem all_failed_terminates_c2 (st : EngineSession) (results : List WorkerResult)
    (stopAfter : Bool) (hrun : st.status = ResearchStatus.running) (hne : results ≠ [])
    (hall : results.all WorkerResult.isFailure = true) :
    (runCycleStep st results stopAfter).status = ResearchStatus.failed ∧
    ∀ script, runEngine (runCycleStep st results stopAfter) script =
      runCycleStep st results stopAfter := by
  obtain ⟨a, l, rfl⟩ : ∃ a l, results = a :: l := by
    cases results with
    | nil => exact absurd rfl hne
    | cons a l => exact ⟨a, l, rfl⟩
  have hfail : (runCycleStep st (a :: l) stopAfter).status = ResearchStatus.failed := by
    simp [runCycleStep, hrun, hall]
  refine ⟨hfail, fun script => ?_⟩
  refine runEngine_not_running _ script ?_
  rw [hfail]
  simp

/-- Witness for C2: a concrete running session whose single worker fails ends
the session with status failed, and a subsequent scripted cycle has no
effect. -/
theorem all_failed_terminates_c2_witness :
    (runCycleStep runningEngineSession [WorkerResult.failure ("backend down")] false).status
        = ResearchStatus.failed ∧
    runEngine (runCycleStep runningEngineSession [WorkerResult.failure ("backend down")] false)
        [([], true)]
      = runCycleStep runningEngineSession [WorkerResult.failure ("backend down")] false := by
  have h := all_failed_terminates_c2 runningEngineSession
    [WorkerResult.failure ("backend down")] false rfl (by simp) rfl
  exact ⟨h.1, h.2 [([], true)]⟩

/-- Claim C9 (amended): on a non-ok response the request helper throws an
ApiError carrying exactly the response's status code and a message, which is
"HTTP <status>" whenever the parsed error body has no message; and it returns
normally with the parsed JSON body exactly when the response is ok and its
body parses as JSON (an ok response with an unparseable body rejects with a
parse failure instead of returning). -/
theorem request_behavior_c9 (resp : HttpResponse) :
    (resp.ok = false →
      ∃ m, request resp = RequestOutcome.apiError resp.status m ∧
        ∀ b, resp.body = some b → b.message = Option.none →
          m = "HTTP " ++ toString resp.status) ∧
    (∀ j, request resp = RequestOutcome.success j ↔
        (resp.ok = true ∧ resp.body = some j)) := by
  constructor
  · intro hok
    cases hb : resp.body with
    | none =>
        refine ⟨"Unknown error", ?_, ?_⟩
        · simp [request, hok, hb]
        · intro b hb2
          cases hb2
    | some b =>
        cases hm : b.message with
        | none =>
            refine ⟨"HTTP " ++ toString resp.status, ?_, fun b2 hb2 hm2 => rfl⟩
            simp [request, hok, hb, hm]
        | some m =>
            by_cases hemp : m = ""
            · refine ⟨"HTTP " ++ toString resp.status, ?_, fun b2 hb2 hm2 => rfl⟩
              simp [request, hok, hb, hm, hemp]
            · refine ⟨m, ?_, ?_⟩
              · simp [request, hok, hb, hm, hemp]
              · intro b2 hb2 hm2
                injection hb2 with hbb
                rw [← hbb] at hm2
                rw [hm] at hm2
                cases hm2
  · intro j
    constructor
    · intro h
      cases hok : resp.ok with
      | false => simp [request, hok] at h
      | true =>
          cases hb : resp.body with
          | none => simp [request, hok, hb] at h
          | some b =>
              simp [request, hok, hb] at h
              exact ⟨rfl, by rw [h]⟩
    · rintro ⟨hok, hb⟩
      simp [request, hok, hb]

/-- Witness for C9: for a concrete 404 response whose error body parses but
has no message, the helper throws an ApiError with status 404 and the
fallback message. -/
theorem request_behavior_c9_witness :
    request notFoundResponse = RequestOutcome.apiError 404 ("HTTP 404") := by
  obtain ⟨m, hm, hcond⟩ := (request_behavior_c9 notFoundResponse).1 rfl
  have hm404 : m = "HTTP " ++ toString (404 : Nat) := by
    have := hcond { message := Option.none, payload := "" } rfl rfl
    simpa [notFoundResponse] using this
  rw [hm, hm404]
  rfl

/-- Counterexample for C9 as stated: an ok response whose body is not valid
JSON does not return normally — the helper rejects with a parse failure even
though the response is ok, so "returns normally exactly when the response is
ok" is false. -/
theorem request_ok_not_success_c9_counterexample :
    okNonJsonResponse.ok = true ∧
    request okNonJsonResponse = RequestOutcome.parseFailure ∧
    (request okNonJsonResponse).isSuccess = false :=
  ⟨rfl, rfl, rfl⟩

/-- Claim C10: the useSSE hook's message handler delivers only successfully
parsed values to onMessage — a malformed (non-JSON) message leaves the hook
state completely unchanged (no delivery, no close, no isConnected change) —
the delivered sequence grows only by the parsed value of a message callback,
and among the installed EventSource callbacks only the transport error
handler closes the connection or sets isConnected to false. -/
theorem useSSE_message_safety_c10 :
    (∀ s : SSEHookState, hookStep s (SourceCallback.onMessage Option.none) = s) ∧
    (∀ (s : SSEHookState) (c : SourceCallback) (e : SSEEvent),
        (hookStep s c).delivered = s.delivered ++ [e] →
          c = SourceCallback.onMessage (some e)) ∧
    (∀ (s : SSEHookState) (c : SourceCallback),
        (hookStep s c).closed = true → s.closed = true ∨ c = SourceCallback.onError) ∧
    (∀ (s : SSEHookState) (c : SourceCallback),
        (hookStep s c).isConnected = false →
          s.isConnected = false ∨ c = SourceCallback.onError) := by
  refine ⟨fun s => rfl, ?_, ?_, ?_⟩
  · intro s c e h
    cases c with
    | onOpen => simp [hookStep] at h
    | onError => simp [hookStep] at h
    | onMessage parsed =>
        cases parsed with
        | none => simp [hookStep] at h
        | some e2 =>
            simp [hookStep] at h
            rw [h]
  · intro s c h
    cases c with
    | onOpen => exact Or.inl h
    | onError => exact Or.inr rfl
    | onMessage parsed =>
        cases parsed with
        | none => exact Or.inl h
        | some e2 => exact Or.inl h
  · intro s c h
    cases c with
    | onOpen => simp [hookStep] at h
    | onError => exact Or.inr rfl
    | onMessage parsed =>
        cases parsed with
        | none => exact Or.inl h
        | some e2 => exact Or.inl h

/-- Witness for C10: a malformed message leaves a concrete hook state
unchanged, and a transport error on that state is the callback that closed
the connection. -/
theorem useSSE_message_safety_c10_witness :
    hookStep initialHookState (SourceCallback.onMessage Option.none) = initialHookState ∧
    (initialHookState.closed = true ∨ SourceCallback.onError = SourceCallback.onError) :=
  ⟨useSSE_message_safety_c10.1 initialHookState,
   useSSE_message_safety_c10.2.2.1 initialHookState SourceCallback.onError rfl⟩

end Scout
